import Mathlib

/-!
Verification of the rocket point-to-point network plugin
(`networking/net-plugin/ptp/main.go`, given here as `src/unnamed/part_000`).

The plugin is embedded shallowly: every external collaborator that the
plugin calls (UUID parsing, network-config loading, the IP allocator,
namespace entry, veth fabrication, CIDR parsing, route/address kernel
calls, link lookup and deletion) lives outside this file's source tree, so
each is a field of an `Oracle` record giving that call's outcome.  The
plugin's own control flow — `cmdAdd`, `cmdDel` and `main` — is translated
statement by statement from the Go source.  Side effects (kernel
mutations, stdout, the log) are recorded in an event trace so that claims
about "what was installed / printed before the failure" can be stated.
-/

set_option autoImplicit false

/-- An IPv4 address, as the number below `2^32` that its four octets spell. -/
abbrev IP := Nat

/-- `net.IPNet`: an address together with a mask length (`net.CIDRMask n 32`). -/
structure IPNet where
  ip : IP
  maskLen : Nat
deriving DecidableEq

/-- A Go `error` value.  `isExist` records whether `os.IsExist` holds of it
(the one error property `cmdAdd` inspects).  Errors built by `fmt.Errorf`
have `isExist = false`: the 2015-era `fmt.Errorf` does not keep the cause. -/
structure GoError where
  msg : String
  isExist : Bool
deriving DecidableEq

/-- A netlink link handle: its interface name and its kernel index. -/
structure Link where
  name : String
  index : Nat
deriving DecidableEq

/-- `util.Net`: the loaded network configuration; the plugin reads only its
ordered route-CIDR list `Routes`. -/
structure Net where
  routes : List String
deriving DecidableEq

/-- `types.UUID`: the parsed container identity (opaque here). -/
structure UUID where
  val : String
deriving DecidableEq

/-- The observable side effects of one plugin invocation, in order. -/
inductive Event where
  /-- A line written to the log (stderr). -/
  | logged (s : String)
  /-- Text written to standard output (`fmt.Print`). -/
  | printed (s : String)
  /-- The IP allocator was consulted (`ipam.AllocPtP`). -/
  | allocCall
  /-- Execution switched into the namespace at `path`. -/
  | nsEnter (path : String)
  /-- Execution was restored to the host namespace. -/
  | nsRestore
  /-- `util.SetupVeth` created the veth pair and gave the container end `ipn`. -/
  | vethCreated (entropy ifName : String) (ipn : IPNet)
  /-- A route to `dst` via gateway `gw` over `dev` was installed in the
  container namespace (`util.AddRoute`). -/
  | routeAdded (dst : IPNet) (gw : IP) (dev : Link)
  /-- The host-side interface was re-resolved by `name` (`netlink.LinkByName`). -/
  | linkLookup (name : String)
  /-- `ipn` was assigned to `dev` on the host (`netlink.AddrAdd`). -/
  | addrAdded (dev : Link) (ipn : IPNet)
  /-- A host-side route to `dst` over `dev` was installed (`util.AddHostRoute`). -/
  | hostRouteAdded (dst : IPNet) (dev : Link)
deriving DecidableEq

/-- The result of `cmdAdd`/`cmdDel`: Go's `nil` error, a returned error, or a
runtime panic (abnormal abort, e.g. an out-of-range slice index). -/
inductive Outcome where
  | ok
  | err (e : GoError)
  | panicked (msg : String)
deriving DecidableEq

/-- How the whole process ends: `os.Exit`/normal return with a status, or a
runtime panic. -/
inductive ProcResult where
  | exited (code : Nat)
  | panicked (msg : String)
deriving DecidableEq

/-- Outcomes of every external call the plugin makes, one invocation's worth.
Each field is the collaborator seen as a black box, exactly at the interface
the Go source uses. -/
structure Oracle where
  /-- `types.NewUUID` on the container-ID string. -/
  newUUID : String → Except GoError UUID
  /-- `util.LoadNet` on the config path. -/
  loadNet : String → Except GoError Net
  /-- `ipam.AllocPtP (cid, netConf, ifName, args)`, returning the IP list. -/
  allocPtP : UUID → String → String → String → Except GoError (List IP)
  /-- Opening and entering the network namespace at a path
  (the fallible half of `util.WithNetNSPath`). -/
  nsOpen : String → Except GoError Unit
  /-- `util.SetupVeth (entropy, ifName, ipn, hostNS)`, returning
  `(hostVeth, contVeth)`. -/
  setupVeth : String → String → IPNet → Except GoError (Link × Link)
  /-- `util.ParseCIDR` on a route string. -/
  parseCIDR : String → Except GoError IPNet
  /-- `util.AddRoute (dst, gw, dev)` inside the container namespace. -/
  addRoute : IPNet → IP → Link → Except GoError Unit
  /-- `netlink.LinkByName`. -/
  linkByName : String → Except GoError Link
  /-- `netlink.AddrAdd (dev, addr)`. -/
  addrAdd : Link → IPNet → Except GoError Unit
  /-- `util.AddHostRoute (ipn, nil, dev)`. -/
  addHostRoute : IPNet → Link → Except GoError Unit
  /-- `util.DelLinkByName (ifName)`, seen as a black box by the dispatcher. -/
  delLinkByName : String → Except GoError Unit

/-- Go's `%q` on an ordinary string (inputs of interest contain no characters
that `strconv.Quote` would escape). -/
def goQuote (s : String) : String := "\"" ++ s ++ "\""

/-- `net.IP.String` for an IPv4 address: dotted-quad text. -/
def ipString (ip : IP) : String :=
  toString ((ip / 16777216) % 256) ++ "." ++ toString ((ip / 65536) % 256) ++ "." ++
    toString ((ip / 256) % 256) ++ "." ++ toString (ip % 256)

/-- `net.IPNet.String`: the (unmasked) address, a slash, the mask length. -/
def IPNet.string (n : IPNet) : String := ipString n.ip ++ "/" ++ toString n.maskLen

/-- The route-installation loop of `cmdAdd`'s namespace callback:
`for _, r := range conf.Routes { dst := ParseCIDR(r); AddRoute(dst, hostIP, contVeth) }`,
with each failure wrapped exactly as the Go source wraps it.  The trace
lists the routes actually installed, in order. -/
def installRoutes (o : Oracle) (routes : List String) (hostIP : IP) (contVeth : Link) :
    Except GoError Unit × List Event :=
  match routes with
  | [] => (Except.ok (), [])
  | r :: rest =>
    match o.parseCIDR r with
    | Except.error e =>
      (Except.error ⟨"failed to parse route " ++ goQuote r ++ ": " ++ e.msg, false⟩, [])
    | Except.ok dst =>
      match o.addRoute dst hostIP contVeth with
      | Except.error e =>
        (Except.error ⟨"failed to add route " ++ goQuote dst.string ++ ": " ++ e.msg, false⟩, [])
      | Except.ok _ =>
        ((installRoutes o rest hostIP contVeth).1,
          Event.routeAdded dst hostIP contVeth :: (installRoutes o rest hostIP contVeth).2)

/-- Modelled from the spec: `util.WithNetNSPath` (networking/util, not under
`src/`) captures the host namespace, switches into the namespace at `path`,
runs the callback with the host handle, and restores the host namespace on
every exit path, returning the callback's error.  Failure to open or enter
the target namespace is the oracle's `nsOpen` error; the callback's value
(what the Go code records into closed-over variables) is returned in the
`Except`. -/
def withNetNSPath {α : Type} (o : Oracle) (path : String)
    (cb : Unit → Except GoError α × List Event) : Except GoError α × List Event :=
  match o.nsOpen path with
  | Except.error e => (Except.error e, [])
  | Except.ok _ => ((cb ()).1, Event.nsEnter path :: (cb ()).2 ++ [Event.nsRestore])

/-- The namespace callback of `cmdAdd`: derive the entropy seed, set up the
veth pair (container end addressed `contIP/31`), install the configured
routes, and record the host veth's name and the container IP network's text
for use after the namespace is restored. -/
def addCallback (o : Oracle) (conf : Net) (contID ifName : String) (hostIP contIP : IP) :
    Except GoError (String × String) × List Event :=
  let entropy := contID ++ ifName
  let ipn : IPNet := ⟨contIP, 31⟩
  match o.setupVeth entropy ifName ipn with
  | Except.error e => (Except.error e, [])
  | Except.ok (hostVeth, contVeth) =>
    match installRoutes o conf.routes hostIP contVeth with
    | (Except.error e, evs) => (Except.error e, Event.vethCreated entropy ifName ipn :: evs)
    | (Except.ok _, evs) =>
      (Except.ok (hostVeth.name, IPNet.string ipn), Event.vethCreated entropy ifName ipn :: evs)

/-- `cmdAdd` from the Go source, step by step: parse the container ID, load
the config, allocate the /31 pair (`ips[0]`, `ips[1]` — a panic if the
allocator returned fewer than two addresses), run the namespace callback,
re-resolve the host veth by name, assign `hostIP/31` to it, add the host
route (tolerating an already-exists error), and print the container network. -/
def cmdAdd (o : Oracle) (contID netns netConf ifName args : String) : Outcome × List Event :=
  match o.newUUID contID with
  | Except.error e => (Outcome.err ⟨"error parsing ContainerID: " ++ e.msg, false⟩, [])
  | Except.ok cid =>
    match o.loadNet netConf with
    | Except.error e =>
      (Outcome.err ⟨"failed to load " ++ goQuote netConf ++ ": " ++ e.msg, false⟩, [])
    | Except.ok conf =>
      match o.allocPtP cid netConf ifName args with
      | Except.error e => (Outcome.err e, [Event.allocCall])
      | Except.ok ips =>
        if 2 ≤ ips.length then
          let hostIP := ips.getD 0 0
          let contIP := ips.getD 1 0
          match withNetNSPath o netns (fun _ => addCallback o conf contID ifName hostIP contIP) with
          | (Except.error e, evs) => (Outcome.err e, Event.allocCall :: evs)
          | (Except.ok (hostVethName, contIPNet), evs) =>
            match o.linkByName hostVethName with
            | Except.error e =>
              (Outcome.err ⟨"failed to lookup " ++ goQuote hostVethName ++ ": " ++ e.msg, false⟩,
                Event.allocCall :: evs ++ [Event.linkLookup hostVethName])
            | Except.ok hostVeth =>
              let ipn : IPNet := ⟨hostIP, 31⟩
              match o.addrAdd hostVeth ipn with
              | Except.error e =>
                (Outcome.err ⟨"failed to add IP addr to veth: " ++ e.msg, false⟩,
                  Event.allocCall :: evs ++ [Event.linkLookup hostVethName])
              | Except.ok _ =>
                match o.addHostRoute ipn hostVeth with
                | Except.error e =>
                  if e.isExist then
                    (Outcome.ok,
                      Event.allocCall :: evs ++
                        [Event.linkLookup hostVethName, Event.addrAdded hostVeth ipn,
                          Event.printed contIPNet])
                  else
                    (Outcome.err ⟨"failed to add route on host: " ++ e.msg, false⟩,
                      Event.allocCall :: evs ++
                        [Event.linkLookup hostVethName, Event.addrAdded hostVeth ipn])
                | Except.ok _ =>
                  (Outcome.ok,
                    Event.allocCall :: evs ++
                      [Event.linkLookup hostVethName, Event.addrAdded hostVeth ipn,
                        Event.hostRouteAdded ipn hostVeth, Event.printed contIPNet])
        else
          (Outcome.panicked "runtime error: index out of range", [Event.allocCall])

/-- `cmdDel` from the Go source: enter the namespace and delete the
interface named `ifName`. -/
def cmdDel (o : Oracle) (contID netns netConf ifName args : String) : Outcome × List Event :=
  match withNetNSPath o netns (fun _ =>
      match o.delLinkByName ifName with
      | Except.error e => (Except.error e, [])
      | Except.ok _ => (Except.ok (), [])) with
  | (Except.error e, evs) => (Outcome.err e, evs)
  | (Except.ok _, evs) => (Outcome.ok, evs)

/-- The six environment variables `main` reads. -/
structure Environ where
  cmd : String
  contID : String
  netns : String
  args : String
  ifName : String
  netConf : String
deriving DecidableEq

/-- The rendering of `os.Environ()` that `log.Print("Env: ", ...)` emits,
restricted to the six plugin variables (the remaining process environment is
irrelevant to every claim). -/
def environString (env : Environ) : String :=
  "[RKT_NETPLUGIN_COMMAND=" ++ env.cmd ++ " RKT_NETPLUGIN_CONTID=" ++ env.contID ++
    " RKT_NETPLUGIN_NETNS=" ++ env.netns ++ " RKT_NETPLUGIN_ARGS=" ++ env.args ++
    " RKT_NETPLUGIN_IFNAME=" ++ env.ifName ++ " RKT_NETPLUGIN_NETCONF=" ++ env.netConf ++ "]"

/-- The tail of `main`: convert the orchestrator's outcome to an exit status,
logging `os.Args[1]` plus the error on failure (a panic when `os.Args` has
fewer than two entries). -/
def finishDispatch (argv : List String) (r : Outcome × List Event) : ProcResult × List Event :=
  match r.1 with
  | Outcome.ok => (ProcResult.exited 0, r.2)
  | Outcome.err e =>
    if 2 ≤ argv.length then
      (ProcResult.exited 1, r.2 ++ [Event.logged (argv.getD 1 "" ++ ": " ++ e.msg)])
    else
      (ProcResult.panicked "runtime error: index out of range", r.2)
  | Outcome.panicked m => (ProcResult.panicked m, r.2)

/-- `main` from the Go source: read the six variables, reject an invocation
with any of the five required ones empty (logging the environment), switch on
the command, and convert the orchestrator's outcome to an exit status. -/
def mainRun (o : Oracle) (argv : List String) (env : Environ) : ProcResult × List Event :=
  if env.cmd = "" ∨ env.contID = "" ∨ env.netns = "" ∨ env.ifName = "" ∨ env.netConf = "" then
    (ProcResult.exited 1,
      [Event.logged "Required env variable missing", Event.logged ("Env: " ++ environString env)])
  else if env.cmd = "ADD" then
    finishDispatch argv (cmdAdd o env.contID env.netns env.netConf env.ifName env.args)
  else if env.cmd = "DEL" then
    finishDispatch argv (cmdDel o env.contID env.netns env.netConf env.ifName env.args)
  else
    (ProcResult.exited 1, [Event.logged ("Unknown RKT_NETPLUGIN_COMMAND: " ++ env.cmd)])

/-- Modelled from the spec: `util.DelLinkByName` (networking/util, not under
`src/`) deletes the interface named `name` from the current namespace, whose
interface set is `links`; a missing interface is success (idempotent
teardown), and a kernel-level deletion failure (`kern name = some e`) is
returned as an error.  On success the resulting interface set is returned. -/
def DelLinkByName (kern : String → Option GoError) (links : List String) (name : String) :
    Except GoError (List String) :=
  if links.contains name then
    match kern name with
    | some e => Except.error e
    | none => Except.ok (links.erase name)
  else
    Except.ok links

/-- `cmdDel` refined over the interface-set model of the container namespace:
enter the namespace, then run the spec-modelled `DelLinkByName`. -/
def cmdDelNS (o : Oracle) (kern : String → Option GoError) (links : List String)
    (netns ifName : String) : Except GoError (List String) :=
  match o.nsOpen netns with
  | Except.error e => Except.error e
  | Except.ok _ => DelLinkByName kern links ifName

/-- `true` exactly on `Except.error`. -/
def isErr {α : Type} : Except GoError α → Bool
  | Except.error _ => true
  | Except.ok _ => false

/-- How many container-namespace routes a trace installs. -/
def countRoutes (evs : List Event) : Nat :=
  (evs.filter fun ev => match ev with | Event.routeAdded _ _ _ => true | _ => false).length

/-- The standard-output payloads of a trace, in order. -/
def printedEvents (evs : List Event) : List String :=
  evs.filterMap fun ev => match ev with | Event.printed s => some s | _ => none

/-- The log lines of a trace, in order. -/
def loggedEvents (evs : List Event) : List String :=
  evs.filterMap fun ev => match ev with | Event.logged s => some s | _ => none

/-- Whether the character list `pat` occurs contiguously inside `l`. -/
def listHasSub (pat : List Char) : List Char → Bool
  | [] => pat.isEmpty
  | c :: rest => pat.isPrefixOf (c :: rest) || listHasSub pat rest

/-- Whether the string `pat` occurs inside `s`. -/
def containsStr (s pat : String) : Bool := listHasSub pat.data s.data

/-- An invocation on which every external call succeeds: one route
`10.1.0.0/24`, the allocated pair `(10.0.0.0, 10.0.0.1)`, a host veth named
`veth1a2b` whose kernel index changes from 7 to 9 across the namespace move. -/
def okO : Oracle :=
  ⟨fun s => Except.ok ⟨s⟩,
   fun _ => Except.ok ⟨["10.1.0.0/24"]⟩,
   fun _ _ _ _ => Except.ok [0x0A000000, 0x0A000001],
   fun _ => Except.ok (),
   fun _ _ _ => Except.ok (⟨"veth1a2b", 7⟩, ⟨"eth0", 2⟩),
   fun r => if r = "10.1.0.0/24" then Except.ok ⟨0x0A010000, 24⟩
            else Except.error ⟨"invalid CIDR address: " ++ r, false⟩,
   fun _ _ _ => Except.ok (),
   fun n => Except.ok ⟨n, 9⟩,
   fun _ _ => Except.ok (),
   fun _ _ => Except.ok (),
   fun _ => Except.ok ()⟩

/-- Like `okO`, but the configuration's route list ends in a malformed CIDR. -/
def routeBadO : Oracle :=
  ⟨okO.newUUID, fun _ => Except.ok ⟨["10.1.0.0/24", "not-a-cidr"]⟩, okO.allocPtP, okO.nsOpen,
   okO.setupVeth, okO.parseCIDR, okO.addRoute, okO.linkByName, okO.addrAdd, okO.addHostRoute,
   okO.delLinkByName⟩

/-- Like `okO`, but the route list starts with the malformed CIDR. -/
def routeBad1O : Oracle :=
  ⟨okO.newUUID, fun _ => Except.ok ⟨["not-a-cidr"]⟩, okO.allocPtP, okO.nsOpen,
   okO.setupVeth, okO.parseCIDR, okO.addRoute, okO.linkByName, okO.addrAdd, okO.addHostRoute,
   okO.delLinkByName⟩

/-- Like `okO`, but the container-ID string does not parse. -/
def uuidErrO : Oracle :=
  ⟨fun _ => Except.error ⟨"bad", false⟩, okO.loadNet, okO.allocPtP, okO.nsOpen, okO.setupVeth,
   okO.parseCIDR, okO.addRoute, okO.linkByName, okO.addrAdd, okO.addHostRoute, okO.delLinkByName⟩

/-- Like `okO`, but the configuration resource fails to load. -/
def loadErrO : Oracle :=
  ⟨okO.newUUID, fun _ => Except.error ⟨"no such file", false⟩, okO.allocPtP, okO.nsOpen,
   okO.setupVeth, okO.parseCIDR, okO.addRoute, okO.linkByName, okO.addrAdd, okO.addHostRoute,
   okO.delLinkByName⟩

/-- Like `okO`, but the IP allocator fails (with an error whose `isExist`
flag is even set, to watch it survive propagation untouched). -/
def allocErrO : Oracle :=
  ⟨okO.newUUID, okO.loadNet, fun _ _ _ _ => Except.error ⟨"no more addresses", true⟩, okO.nsOpen,
   okO.setupVeth, okO.parseCIDR, okO.addRoute, okO.linkByName, okO.addrAdd, okO.addHostRoute,
   okO.delLinkByName⟩

/-- Like `okO`, but the allocator hands back a single address. -/
def shortAllocO : Oracle :=
  ⟨okO.newUUID, okO.loadNet, fun _ _ _ _ => Except.ok [0x0A000000], okO.nsOpen, okO.setupVeth,
   okO.parseCIDR, okO.addRoute, okO.linkByName, okO.addrAdd, okO.addHostRoute, okO.delLinkByName⟩

/-- Like `okO`, but the host-side re-lookup of the veth by name fails. -/
def lookupErrO : Oracle :=
  ⟨okO.newUUID, okO.loadNet, okO.allocPtP, okO.nsOpen, okO.setupVeth, okO.parseCIDR, okO.addRoute,
   fun _ => Except.error ⟨"Link not found", false⟩, okO.addrAdd, okO.addHostRoute,
   okO.delLinkByName⟩

/-- Like `okO`, but assigning the host address fails. -/
def addrErrO : Oracle :=
  ⟨okO.newUUID, okO.loadNet, okO.allocPtP, okO.nsOpen, okO.setupVeth, okO.parseCIDR, okO.addRoute,
   okO.linkByName, fun _ _ => Except.error ⟨"boom", false⟩, okO.addHostRoute, okO.delLinkByName⟩

/-- Like `okO`, but the host route already exists (`os.IsExist` error). -/
def hostExistO : Oracle :=
  ⟨okO.newUUID, okO.loadNet, okO.allocPtP, okO.nsOpen, okO.setupVeth, okO.parseCIDR, okO.addRoute,
   okO.linkByName, okO.addrAdd, fun _ _ => Except.error ⟨"file exists", true⟩, okO.delLinkByName⟩

/-- Like `okO`, but installing the host route fails for another reason. -/
def hostErrO : Oracle :=
  ⟨okO.newUUID, okO.loadNet, okO.allocPtP, okO.nsOpen, okO.setupVeth, okO.parseCIDR, okO.addRoute,
   okO.linkByName, okO.addrAdd, fun _ _ => Except.error ⟨"network is down", false⟩,
   okO.delLinkByName⟩

/-- Like `okO`, but deleting the interface fails at the kernel. -/
def delErrO : Oracle :=
  ⟨okO.newUUID, okO.loadNet, okO.allocPtP, okO.nsOpen, okO.setupVeth, okO.parseCIDR, okO.addRoute,
   okO.linkByName, okO.addrAdd, okO.addHostRoute,
   fun _ => Except.error ⟨"operation not permitted", false⟩⟩

/-- Like `okO`, but installing a container-namespace route fails. -/
def routeAddErrO : Oracle :=
  ⟨okO.newUUID, okO.loadNet, okO.allocPtP, okO.nsOpen, okO.setupVeth, okO.parseCIDR,
   fun _ _ _ => Except.error ⟨"invalid gateway", false⟩, okO.linkByName, okO.addrAdd,
   okO.addHostRoute, okO.delLinkByName⟩

/-- A kernel in which link deletion always succeeds. -/
def kernNone : String → Option GoError := fun _ => none

/-- A kernel that rejects every link deletion. -/
def kernPerm : String → Option GoError := fun _ => some ⟨"operation not permitted", false⟩

/-- A complete, well-formed plugin environment for `ADD` (note `args` empty:
it is the one optional variable). -/
def envAdd : Environ := ⟨"ADD", "abc123", "/var/ns/7", "", "eth0", "net.conf"⟩

/-- The same environment for `DEL`. -/
def envDel : Environ := ⟨"DEL", "abc123", "/var/ns/7", "", "eth0", "net.conf"⟩

/-- The same environment with the configuration reference omitted. -/
def envNoConf : Environ := ⟨"ADD", "abc123", "/var/ns/7", "", "eth0", ""⟩


lemma installRoutes_err (o : Oracle) (gw : IP) (dev : Link) :
    ∀ rs : List String, (∃ r ∈ rs, isErr (o.parseCIDR r) = true) →
      isErr (installRoutes o rs gw dev).1 = true := by
  intro rs
  induction rs with
  | nil => rintro ⟨r, hr, _⟩; simp at hr
  | cons r rest ih =>
    rintro ⟨r2, hr2, hbad⟩
    cases hp : o.parseCIDR r with
    | error e => simp [installRoutes, hp, isErr]
    | ok dst =>
      cases ha : o.addRoute dst gw dev with
      | error e => simp [installRoutes, hp, ha, isErr]
      | ok u =>
        have hmem : r2 ∈ rest := by
          rcases List.mem_cons.mp hr2 with h | h
          · subst h; rw [hp] at hbad; simp [isErr] at hbad
          · exact h
        have := ih ⟨r2, hmem, hbad⟩
        simp only [installRoutes, hp, ha]
        exact this

lemma installRoutes_count (o : Oracle) (gw : IP) (dev : Link) :
    ∀ rs : List String, countRoutes (installRoutes o rs gw dev).2 ≤
      rs.findIdx (fun r => isErr (o.parseCIDR r)) := by
  intro rs
  induction rs with
  | nil => simp [installRoutes, countRoutes]
  | cons r rest ih =>
    cases hp : o.parseCIDR r with
    | error e => simp [installRoutes, hp, countRoutes]
    | ok dst =>
      have hfind : List.findIdx (fun r => isErr (o.parseCIDR r)) (r :: rest) =
          List.findIdx (fun r => isErr (o.parseCIDR r)) rest + 1 := by
        rw [List.findIdx_cons]
        simp [hp, isErr]
      cases ha : o.addRoute dst gw dev with
      | error e => simp [installRoutes, hp, ha, countRoutes, hfind]
      | ok u =>
        rw [hfind]
        simp only [installRoutes, hp, ha]
        simp [countRoutes, List.filter_cons] at ih ⊢
        omega

lemma installRoutes_shape (o : Oracle) (gw : IP) (dev : Link) :
    ∀ (rs : List String) (ev : Event), ev ∈ (installRoutes o rs gw dev).2 →
      ∃ d, ev = Event.routeAdded d gw dev := by
  intro rs
  induction rs with
  | nil => intro ev h; simp [installRoutes] at h
  | cons r rest ih =>
    intro ev h
    cases hp : o.parseCIDR r with
    | error e => simp [installRoutes, hp] at h
    | ok dst =>
      cases ha : o.addRoute dst gw dev with
      | error e => simp [installRoutes, hp, ha] at h
      | ok u =>
        simp only [installRoutes, hp, ha, List.mem_cons] at h
        rcases h with h | h
        · exact ⟨dst, h⟩
        · exact ih ev h

lemma withNetNSPath_ok {α : Type} (o : Oracle) (path : String)
    (cb : Unit → Except GoError α × List Event) (v : α) (evs : List Event)
    (h : withNetNSPath o path cb = (Except.ok v, evs)) :
    (cb ()).1 = Except.ok v ∧ evs = Event.nsEnter path :: (cb ()).2 ++ [Event.nsRestore] := by
  rw [withNetNSPath] at h
  cases hns : o.nsOpen path with
  | error e => rw [hns] at h; simp at h
  | ok u =>
    rw [hns] at h
    exact ⟨congrArg Prod.fst h, (congrArg Prod.snd h).symm⟩

lemma addCallback_shape (o : Oracle) (conf : Net) (cI iN : String) (hip cip : IP) :
    ∀ ev ∈ (addCallback o conf cI iN hip cip).2,
      ev = Event.vethCreated (cI ++ iN) iN ⟨cip, 31⟩ ∨ ∃ d g v, ev = Event.routeAdded d g v := by
  intro ev h
  cases hs : o.setupVeth (cI ++ iN) iN ⟨cip, 31⟩ with
  | error e => simp [addCallback, hs] at h
  | ok p =>
    obtain ⟨hv, cv⟩ := p
    rcases hI : installRoutes o conf.routes hip cv with ⟨res, revs⟩
    simp only [addCallback, hs, hI] at h
    have hrevs : ∀ ev2 ∈ revs, ∃ d, ev2 = Event.routeAdded d hip cv := by
      intro ev2 h2
      exact installRoutes_shape o hip cv conf.routes ev2 (by rw [hI]; exact h2)
    cases res with
    | error e =>
      simp only [List.mem_cons] at h
      rcases h with h | h
      · exact Or.inl h
      · obtain ⟨d, hd⟩ := hrevs ev h
        exact Or.inr ⟨d, hip, cv, hd⟩
    | ok u =>
      simp only [List.mem_cons] at h
      rcases h with h | h
      · exact Or.inl h
      · obtain ⟨d, hd⟩ := hrevs ev h
        exact Or.inr ⟨d, hip, cv, hd⟩

lemma addCallback_ok (o : Oracle) (conf : Net) (cI iN : String) (hip cip : IP)
    (v : String × String) (h : (addCallback o conf cI iN hip cip).1 = Except.ok v) :
    v.2 = IPNet.string ⟨cip, 31⟩ := by
  cases hs : o.setupVeth (cI ++ iN) iN ⟨cip, 31⟩ with
  | error e => simp [addCallback, hs] at h
  | ok p =>
    obtain ⟨hv, cv⟩ := p
    rcases hI : installRoutes o conf.routes hip cv with ⟨res, revs⟩
    simp only [addCallback, hs, hI] at h
    cases res with
    | error e => simp at h
    | ok u => simp at h; rw [← h]

/-- Claim C10: `cmdAdd` indexes positions 0 and 1 of the allocator's result
without a length check, so whenever the allocator succeeds with fewer than
two addresses the ADD operation aborts abnormally (an out-of-range panic)
instead of returning an error value. -/
theorem c10_alloc_short_panics (o : Oracle) (contID netns netConf ifName args : String)
    (cid : UUID) (conf : Net) (ips : List IP)
    (h1 : o.newUUID contID = Except.ok cid)
    (h2 : o.loadNet netConf = Except.ok conf)
    (h3 : o.allocPtP cid netConf ifName args = Except.ok ips)
    (h4 : ips.length < 2) :
    (cmdAdd o contID netns netConf ifName args).1 =
      Outcome.panicked "runtime error: index out of range" := by
  simp only [cmdAdd, h1, h2, h3]
  rw [if_neg (by omega)]

/-- Claim C10 witness: an allocator returning the single address `10.0.0.0`
makes ADD panic. -/
theorem c10_witness :
    (cmdAdd shortAllocO "abc123" "/var/ns/7" "net.conf" "eth0" "").1 =
      Outcome.panicked "runtime error: index out of range" :=
  c10_alloc_short_panics shortAllocO "abc123" "/var/ns/7" "net.conf" "eth0" ""
    ⟨"abc123"⟩ ⟨["10.1.0.0/24"]⟩ [0x0A000000] rfl rfl rfl (by decide)

/-- Claim C4: in ADD's final host-side step, a host-route installation
failure whose error satisfies `os.IsExist` is treated as success (`cmdAdd`
returns no error), while any other host-route failure makes `cmdAdd` return
an error. -/
theorem c4_host_route_exists_tolerated (o : Oracle)
    (contID netns netConf ifName args : String) (cid : UUID) (conf : Net)
    (hip cip : IP) (hv0 cv hv : Link) (revs : List Event)
    (h1 : o.newUUID contID = Except.ok cid)
    (h2 : o.loadNet netConf = Except.ok conf)
    (h3 : o.allocPtP cid netConf ifName args = Except.ok [hip, cip])
    (h4 : o.nsOpen netns = Except.ok ())
    (h5 : o.setupVeth (contID ++ ifName) ifName ⟨cip, 31⟩ = Except.ok (hv0, cv))
    (h6 : installRoutes o conf.routes hip cv = (Except.ok (), revs))
    (h7 : o.linkByName hv0.name = Except.ok hv)
    (h8 : o.addrAdd hv ⟨hip, 31⟩ = Except.ok ()) :
    (∀ e : GoError, o.addHostRoute ⟨hip, 31⟩ hv = Except.error e → e.isExist = true →
      (cmdAdd o contID netns netConf ifName args).1 = Outcome.ok) ∧
    (∀ e : GoError, o.addHostRoute ⟨hip, 31⟩ hv = Except.error e → e.isExist = false →
      (cmdAdd o contID netns netConf ifName args).1 =
        Outcome.err ⟨"failed to add route on host: " ++ e.msg, false⟩) := by
  constructor <;> intro e he hex <;>
    simp [cmdAdd, h1, h2, h3, withNetNSPath, h4, addCallback, h5, h6, h7, h8, he, hex]

/-- Claim C4 witness: with every earlier step succeeding, an already-exists
host-route error still yields success, and a "network is down" host-route
error yields the wrapped failure. -/
theorem c4_witness :
    (cmdAdd hostExistO "abc123" "/var/ns/7" "net.conf" "eth0" "").1 = Outcome.ok ∧
    (cmdAdd hostErrO "abc123" "/var/ns/7" "net.conf" "eth0" "").1 =
      Outcome.err ⟨"failed to add route on host: network is down", false⟩ :=
  ⟨(c4_host_route_exists_tolerated hostExistO "abc123" "/var/ns/7" "net.conf" "eth0" ""
      ⟨"abc123"⟩ ⟨["10.1.0.0/24"]⟩ 0x0A000000 0x0A000001 ⟨"veth1a2b", 7⟩ ⟨"eth0", 2⟩
      ⟨"veth1a2b", 9⟩ [Event.routeAdded ⟨0x0A010000, 24⟩ 0x0A000000 ⟨"eth0", 2⟩]
      rfl rfl rfl rfl rfl rfl rfl rfl).1
    ⟨"file exists", true⟩ rfl rfl,
   (c4_host_route_exists_tolerated hostErrO "abc123" "/var/ns/7" "net.conf" "eth0" ""
      ⟨"abc123"⟩ ⟨["10.1.0.0/24"]⟩ 0x0A000000 0x0A000001 ⟨"veth1a2b", 7⟩ ⟨"eth0", 2⟩
      ⟨"veth1a2b", 9⟩ [Event.routeAdded ⟨0x0A010000, 24⟩ 0x0A000000 ⟨"eth0", 2⟩]
      rfl rfl rfl rfl rfl rfl rfl rfl).2
    ⟨"network is down", false⟩ rfl rfl⟩

/-- Claim C8: in a successful ADD the host-side interface is re-resolved by
the name recorded inside the namespace callback, strictly after the
namespace has been restored (the lookup, with the recorded name as key,
sits between `nsRestore` and the address assignment in the trace), the
address `hostIP/31` goes to the freshly re-resolved link (whose kernel
index may differ from the pre-switch one), and a failing lookup makes
`cmdAdd` return an error with no address ever assigned. -/
theorem c8_relookup_after_namespace (o : Oracle)
    (contID netns netConf ifName args : String) (cid : UUID) (conf : Net)
    (hip cip : IP) (hv0 cv : Link) (revs : List Event)
    (h1 : o.newUUID contID = Except.ok cid)
    (h2 : o.loadNet netConf = Except.ok conf)
    (h3 : o.allocPtP cid netConf ifName args = Except.ok [hip, cip])
    (h4 : o.nsOpen netns = Except.ok ())
    (h5 : o.setupVeth (contID ++ ifName) ifName ⟨cip, 31⟩ = Except.ok (hv0, cv))
    (h6 : installRoutes o conf.routes hip cv = (Except.ok (), revs)) :
    (∀ hv : Link, o.linkByName hv0.name = Except.ok hv →
      o.addrAdd hv ⟨hip, 31⟩ = Except.ok () →
      o.addHostRoute ⟨hip, 31⟩ hv = Except.ok () →
      cmdAdd o contID netns netConf ifName args =
        (Outcome.ok,
         [Event.allocCall, Event.nsEnter netns,
          Event.vethCreated (contID ++ ifName) ifName ⟨cip, 31⟩] ++ revs ++
           [Event.nsRestore, Event.linkLookup hv0.name, Event.addrAdded hv ⟨hip, 31⟩,
            Event.hostRouteAdded ⟨hip, 31⟩ hv, Event.printed (IPNet.string ⟨cip, 31⟩)])) ∧
    (∀ e : GoError, o.linkByName hv0.name = Except.error e →
      (cmdAdd o contID netns netConf ifName args).1 =
        Outcome.err ⟨"failed to lookup " ++ goQuote hv0.name ++ ": " ++ e.msg, false⟩ ∧
      ∀ (dev : Link) (ipn : IPNet),
        Event.addrAdded dev ipn ∉ (cmdAdd o contID netns netConf ifName args).2) := by
  have hrevs : ∀ ev ∈ revs, ∃ d, ev = Event.routeAdded d hip cv := by
    intro ev hmem
    exact installRoutes_shape o hip cv conf.routes ev (by rw [h6]; exact hmem)
  constructor
  · intro hv hLk hAd hHr
    simp [cmdAdd, h1, h2, h3, withNetNSPath, h4, addCallback, h5, h6, hLk, hAd, hHr]
  · intro e hLk
    constructor
    · simp [cmdAdd, h1, h2, h3, withNetNSPath, h4, addCallback, h5, h6, hLk]
    · intro dev ipn hmem
      simp [cmdAdd, h1, h2, h3, withNetNSPath, h4, addCallback, h5, h6, hLk] at hmem
      obtain ⟨d, hd⟩ := hrevs _ hmem
      simp at hd

/-- Claim C8 witness: a concrete successful ADD whose host veth index
changed from 7 to 9 across the namespace move, with the re-lookup sitting
after `nsRestore`; and a concrete failing lookup yielding the wrapped error
and no address assignment. -/
theorem c8_witness :
    cmdAdd okO "abc123" "/var/ns/7" "net.conf" "eth0" "" =
      (Outcome.ok,
       [Event.allocCall, Event.nsEnter "/var/ns/7",
        Event.vethCreated "abc123eth0" "eth0" ⟨0x0A000001, 31⟩] ++
         [Event.routeAdded ⟨0x0A010000, 24⟩ 0x0A000000 ⟨"eth0", 2⟩] ++
         [Event.nsRestore, Event.linkLookup "veth1a2b",
          Event.addrAdded ⟨"veth1a2b", 9⟩ ⟨0x0A000000, 31⟩,
          Event.hostRouteAdded ⟨0x0A000000, 31⟩ ⟨"veth1a2b", 9⟩,
          Event.printed (IPNet.string ⟨0x0A000001, 31⟩)]) ∧
    (cmdAdd lookupErrO "abc123" "/var/ns/7" "net.conf" "eth0" "").1 =
      Outcome.err ⟨"failed to lookup " ++ goQuote "veth1a2b" ++ ": " ++ "Link not found",
        false⟩ ∧
    Event.addrAdded ⟨"veth1a2b", 9⟩ ⟨0x0A000000, 31⟩ ∉
      (cmdAdd lookupErrO "abc123" "/var/ns/7" "net.conf" "eth0" "").2 :=
  ⟨(c8_relookup_after_namespace okO "abc123" "/var/ns/7" "net.conf" "eth0" ""
      ⟨"abc123"⟩ ⟨["10.1.0.0/24"]⟩ 0x0A000000 0x0A000001 ⟨"veth1a2b", 7⟩ ⟨"eth0", 2⟩
      [Event.routeAdded ⟨0x0A010000, 24⟩ 0x0A000000 ⟨"eth0", 2⟩]
      rfl rfl rfl rfl rfl rfl).1 ⟨"veth1a2b", 9⟩ rfl rfl rfl,
   ((c8_relookup_after_namespace lookupErrO "abc123" "/var/ns/7" "net.conf" "eth0" ""
      ⟨"abc123"⟩ ⟨["10.1.0.0/24"]⟩ 0x0A000000 0x0A000001 ⟨"veth1a2b", 7⟩ ⟨"eth0", 2⟩
      [Event.routeAdded ⟨0x0A010000, 24⟩ 0x0A000000 ⟨"eth0", 2⟩]
      rfl rfl rfl rfl rfl rfl).2 ⟨"Link not found", false⟩ rfl).1,
   ((c8_relookup_after_namespace lookupErrO "abc123" "/var/ns/7" "net.conf" "eth0" ""
      ⟨"abc123"⟩ ⟨["10.1.0.0/24"]⟩ 0x0A000000 0x0A000001 ⟨"veth1a2b", 7⟩ ⟨"eth0", 2⟩
      [Event.routeAdded ⟨0x0A010000, 24⟩ 0x0A000000 ⟨"eth0", 2⟩]
      rfl rfl rfl rfl rfl rfl).2 ⟨"Link not found", false⟩ rfl).2
     ⟨"veth1a2b", 9⟩ ⟨0x0A000000, 31⟩⟩

lemma addCallback_no_printed (o : Oracle) (conf : Net) (cI iN : String) (hip cip : IP) :
    printedEvents (addCallback o conf cI iN hip cip).2 = [] := by
  simp only [printedEvents, List.filterMap_eq_nil_iff]
  intro ev hev
  rcases addCallback_shape o conf cI iN hip cip ev hev with h | ⟨d, g, v2, h⟩ <;> subst h <;> rfl

/-- Claim C3: a successful ADD writes the container-side /31 network text —
derived from the second allocated address — to standard output as the sole
payload, and a DEL invocation writes nothing to standard output. -/
theorem c3_stdout_payload (o : Oracle) (contID netns netConf ifName args : String)
    (cid : UUID) (ips : List IP)
    (h1 : o.newUUID contID = Except.ok cid)
    (h3 : o.allocPtP cid netConf ifName args = Except.ok ips) :
    ((cmdAdd o contID netns netConf ifName args).1 = Outcome.ok →
      printedEvents (cmdAdd o contID netns netConf ifName args).2 =
        [IPNet.string ⟨ips.getD 1 0, 31⟩]) ∧
    printedEvents (cmdDel o contID netns netConf ifName args).2 = [] := by
  constructor
  · intro hok
    simp only [cmdAdd, h1, h3] at hok ⊢
    cases hL : o.loadNet netConf with
    | error e => simp only [hL] at hok; simp at hok
    | ok conf =>
      simp only [hL] at hok ⊢
      by_cases hlen : 2 ≤ ips.length
      · rw [if_pos hlen] at hok ⊢
        cases hns : o.nsOpen netns with
        | error e => simp only [withNetNSPath, hns] at hok; simp at hok
        | ok u =>
          simp only [withNetNSPath, hns] at hok ⊢
          cases hcb : (addCallback o conf contID ifName (ips.getD 0 0) (ips.getD 1 0)).1 with
          | error e => simp only [hcb] at hok; simp at hok
          | ok v =>
            obtain ⟨hvn, cipn⟩ := v
            simp only [hcb] at hok ⊢
            have hc : cipn = IPNet.string ⟨ips.getD 1 0, 31⟩ :=
              addCallback_ok o conf contID ifName _ _ (hvn, cipn) hcb
            have hnp := addCallback_no_printed o conf contID ifName (ips.getD 0 0) (ips.getD 1 0)
            cases hLk : o.linkByName hvn with
            | error e => simp only [hLk] at hok; simp at hok
            | ok hv =>
              simp only [hLk] at hok ⊢
              cases hAd : o.addrAdd hv ⟨ips.getD 0 0, 31⟩ with
              | error e => simp only [hAd] at hok; simp at hok
              | ok u1 =>
                simp only [hAd] at hok ⊢
                cases hHr : o.addHostRoute ⟨ips.getD 0 0, 31⟩ hv with
                | error e =>
                  simp only [hHr] at hok ⊢
                  by_cases hex : e.isExist = true
                  · rw [if_pos hex]
                    simp only [printedEvents] at hnp ⊢
                    simp only [List.filterMap_cons, List.filterMap_append, hnp]
                    simp [hc]
                  · rw [if_neg hex] at hok; simp at hok
                | ok u2 =>
                  simp only [hHr] at hok ⊢
                  simp only [printedEvents] at hnp ⊢
                  simp only [List.filterMap_cons, List.filterMap_append, hnp]
                  simp [hc]
      · rw [if_neg hlen] at hok; simp at hok
  · cases hns : o.nsOpen netns with
    | error e => simp [cmdDel, withNetNSPath, hns, printedEvents]
    | ok u =>
      cases hdl : o.delLinkByName ifName with
      | error e => simp [cmdDel, withNetNSPath, hns, hdl, printedEvents]
      | ok u2 => simp [cmdDel, withNetNSPath, hns, hdl, printedEvents]

/-- Claim C3 witness: the concrete successful ADD prints exactly
`10.0.0.1/31`, and the concrete DEL prints nothing. -/
theorem c3_witness :
    printedEvents (cmdAdd okO "abc123" "/var/ns/7" "net.conf" "eth0" "").2 =
      [IPNet.string ⟨0x0A000001, 31⟩] ∧
    printedEvents (cmdDel okO "abc123" "/var/ns/7" "net.conf" "eth0" "").2 = [] :=
  ⟨(c3_stdout_payload okO "abc123" "/var/ns/7" "net.conf" "eth0" ""
      ⟨"abc123"⟩ [0x0A000000, 0x0A000001] rfl rfl).1 rfl,
   (c3_stdout_payload okO "abc123" "/var/ns/7" "net.conf" "eth0" ""
      ⟨"abc123"⟩ [0x0A000000, 0x0A000001] rfl rfl).2⟩

/-- Claim C1 counterexample: with route list `["10.1.0.0/24", "not-a-cidr"]`
ADD does fail with the route-parse error, but the route for the entry
preceding the malformed one has already been installed in the container
namespace — the trace holds one `routeAdded` event, not zero as the claim
demands. -/
theorem c1_counterexample :
    isErr (routeBadO.parseCIDR "not-a-cidr") = true ∧
    (cmdAdd routeBadO "abc123" "/var/ns/7" "net.conf" "eth0" "").1 =
      Outcome.err ⟨"failed to parse route \"not-a-cidr\": invalid CIDR address: not-a-cidr",
        false⟩ ∧
    countRoutes (cmdAdd routeBadO "abc123" "/var/ns/7" "net.conf" "eth0" "").2 = 1 := by
  refine ⟨by decide, by decide, by decide⟩

/-- Claim C1 (amended): if the loaded configuration's route list contains an
unparseable entry, `cmdAdd` returns an error, and no route at or after the
first unparseable entry is installed — the number of routes installed in
that invocation is at most the index of the first unparseable entry
(entries before it may already have been installed). -/
theorem c1_route_parse_error (o : Oracle)
    (contID netns netConf ifName args : String) (conf : Net)
    (h2 : o.loadNet netConf = Except.ok conf)
    (hlen : ∀ (cid : UUID) (ips : List IP),
      o.allocPtP cid netConf ifName args = Except.ok ips → 2 ≤ ips.length)
    (hbad : ∃ r ∈ conf.routes, isErr (o.parseCIDR r) = true) :
    (∃ e, (cmdAdd o contID netns netConf ifName args).1 = Outcome.err e) ∧
    countRoutes (cmdAdd o contID netns netConf ifName args).2 ≤
      conf.routes.findIdx (fun r => isErr (o.parseCIDR r)) := by
  cases hU : o.newUUID contID with
  | error e =>
    exact ⟨⟨⟨"error parsing ContainerID: " ++ e.msg, false⟩, by simp [cmdAdd, hU]⟩,
      by simp [cmdAdd, hU, countRoutes]⟩
  | ok cid =>
    cases hA : o.allocPtP cid netConf ifName args with
    | error e =>
      exact ⟨⟨e, by simp [cmdAdd, hU, h2, hA]⟩, by simp [cmdAdd, hU, h2, hA, countRoutes]⟩
    | ok ips =>
      simp only [cmdAdd, hU, h2, hA]
      rw [if_pos (hlen cid ips hA)]
      cases hns : o.nsOpen netns with
      | error e =>
        simp only [withNetNSPath, hns]
        exact ⟨⟨e, by simp⟩, by simp [countRoutes]⟩
      | ok u =>
        simp only [withNetNSPath, hns]
        cases hs : o.setupVeth (contID ++ ifName) ifName ⟨ips.getD 1 0, 31⟩ with
        | error e =>
          simp only [addCallback, hs]
          exact ⟨⟨e, by simp⟩, by simp [countRoutes]⟩
        | ok p =>
          obtain ⟨hv, cv⟩ := p
          have hie := installRoutes_err o (ips.getD 0 0) cv conf.routes hbad
          rcases hI : installRoutes o conf.routes (ips.getD 0 0) cv with ⟨res, revs⟩
          cases res with
          | ok u2 => rw [hI] at hie; simp [isErr] at hie
          | error e =>
            simp only [addCallback, hs, hI]
            have hcount := installRoutes_count o (ips.getD 0 0) cv conf.routes
            rw [hI] at hcount
            constructor
            · exact ⟨e, by simp⟩
            · simp [countRoutes, List.filter_cons, List.filter_append] at hcount ⊢
              omega

/-- Claim C1 witness: the amended statement at the concrete malformed-route
configuration — ADD errors and installs at most one route (the index of the
malformed entry). -/
theorem c1_witness :
    (∃ e, (cmdAdd routeBadO "abc123" "/var/ns/7" "net.conf" "eth0" "").1 = Outcome.err e) ∧
    countRoutes (cmdAdd routeBadO "abc123" "/var/ns/7" "net.conf" "eth0" "").2 ≤
      List.findIdx (fun r => isErr (routeBadO.parseCIDR r)) ["10.1.0.0/24", "not-a-cidr"] :=
  c1_route_parse_error routeBadO "abc123" "/var/ns/7" "net.conf" "eth0" ""
    ⟨["10.1.0.0/24", "not-a-cidr"]⟩ rfl
    (fun cid ips h => by simp [routeBadO, okO] at h; rw [← h]; decide)
    ⟨"not-a-cidr", by decide, by decide⟩

/-- Claim C2: over the interface-set model of the container namespace
(spec-modelled `DelLinkByName`), a DEL naming an interface absent from the
namespace succeeds and leaves the set unchanged; whenever a DEL succeeds, an
immediately repeated DEL of the same name succeeds as well; and a
kernel-level deletion failure of a present interface is returned as an
error. -/
theorem c2_del_idempotent (o : Oracle) (kern : String → Option GoError)
    (links : List String) (netns ifName : String)
    (h : o.nsOpen netns = Except.ok ()) :
    (links.contains ifName = false → cmdDelNS o kern links netns ifName = Except.ok links) ∧
    (∀ links2 : List String, cmdDelNS o kern links netns ifName = Except.ok links2 →
      isErr (cmdDelNS o kern links2 netns ifName) = false) ∧
    (∀ e : GoError, links.contains ifName = true → kern ifName = some e →
      cmdDelNS o kern links netns ifName = Except.error e) := by
  refine ⟨?_, ?_, ?_⟩
  · intro hc
    have hneg : ¬links.contains ifName = true := by
      intro hx; rw [hc] at hx; exact Bool.false_ne_true hx
    simp only [cmdDelNS, h, DelLinkByName]
    rw [if_neg hneg]
  · intro links2 hdel
    simp only [cmdDelNS, h, DelLinkByName] at hdel ⊢
    by_cases hc : links.contains ifName = true
    · rw [if_pos hc] at hdel
      cases hk : kern ifName with
      | some e => rw [hk] at hdel; exact absurd hdel (by simp)
      | none =>
        rw [hk] at hdel
        injection hdel with h2
        subst h2
        by_cases hc2 : (links.erase ifName).contains ifName = true
        · rw [if_pos hc2]; simp [isErr]
        · rw [if_neg hc2]; simp [isErr]
    · rw [if_neg hc] at hdel
      injection hdel with h2
      subst h2
      rw [if_neg hc]
      simp [isErr]
  · intro e hc hk
    simp only [cmdDelNS, h, DelLinkByName]
    rw [if_pos hc, hk]

/-- Claim C2 witness: deleting `eth0` from an empty namespace succeeds; after
a successful deletion the repeated DEL also succeeds; and a permission
failure from the kernel is surfaced. -/
theorem c2_witness :
    cmdDelNS okO kernNone [] "/var/ns/7" "eth0" = Except.ok [] ∧
    isErr (cmdDelNS okO kernNone [] "/var/ns/7" "eth0") = false ∧
    cmdDelNS okO kernPerm ["eth0"] "/var/ns/7" "eth0" =
      Except.error ⟨"operation not permitted", false⟩ :=
  ⟨(c2_del_idempotent okO kernNone [] "/var/ns/7" "eth0" rfl).1 rfl,
   (c2_del_idempotent okO kernNone ["eth0"] "/var/ns/7" "eth0" rfl).2.1 [] rfl,
   (c2_del_idempotent okO kernPerm ["eth0"] "/var/ns/7" "eth0" rfl).2.2
     ⟨"operation not permitted", false⟩ rfl rfl⟩

lemma addCallback_no_logged (o : Oracle) (conf : Net) (cI iN : String) (hip cip : IP)
    (s : String) : Event.logged s ∉ (addCallback o conf cI iN hip cip).2 := by
  intro hmem
  rcases addCallback_shape o conf cI iN hip cip _ hmem with h | ⟨d, g, v, h⟩ <;> simp at h

lemma cmdAdd_no_logged (o : Oracle) (contID netns netConf ifName args s : String) :
    Event.logged s ∉ (cmdAdd o contID netns netConf ifName args).2 := by
  intro hmem
  cases hU : o.newUUID contID with
  | error e => simp [cmdAdd, hU] at hmem
  | ok cid =>
    cases hL : o.loadNet netConf with
    | error e => simp [cmdAdd, hU, hL] at hmem
    | ok conf =>
      cases hA : o.allocPtP cid netConf ifName args with
      | error e => simp [cmdAdd, hU, hL, hA] at hmem
      | ok ips =>
        simp only [cmdAdd, hU, hL, hA] at hmem
        by_cases hlen : 2 ≤ ips.length
        · rw [if_pos hlen] at hmem
          cases hns : o.nsOpen netns with
          | error e => simp [withNetNSPath, hns] at hmem
          | ok u =>
            simp only [withNetNSPath, hns] at hmem
            cases hcb : (addCallback o conf contID ifName (ips.getD 0 0) (ips.getD 1 0)).1 with
            | error e =>
              simp only [hcb] at hmem
              simp at hmem
              exact addCallback_no_logged o conf contID ifName _ _ s hmem
            | ok v =>
              obtain ⟨hvn, cipn⟩ := v
              simp only [hcb] at hmem
              cases hLk : o.linkByName hvn with
              | error e =>
                simp only [hLk] at hmem
                simp at hmem
                exact addCallback_no_logged o conf contID ifName _ _ s hmem
              | ok hv =>
                simp only [hLk] at hmem
                cases hAd : o.addrAdd hv ⟨ips.getD 0 0, 31⟩ with
                | error e =>
                  simp only [hAd] at hmem
                  simp at hmem
                  exact addCallback_no_logged o conf contID ifName _ _ s hmem
                | ok u1 =>
                  simp only [hAd] at hmem
                  cases hHr : o.addHostRoute ⟨ips.getD 0 0, 31⟩ hv with
                  | error e =>
                    simp only [hHr] at hmem
                    by_cases hex : e.isExist = true
                    · rw [if_pos hex] at hmem
                      simp at hmem
                      exact addCallback_no_logged o conf contID ifName _ _ s hmem
                    · rw [if_neg hex] at hmem
                      simp at hmem
                      exact addCallback_no_logged o conf contID ifName _ _ s hmem
                  | ok u2 =>
                    simp only [hHr] at hmem
                    simp at hmem
                    exact addCallback_no_logged o conf contID ifName _ _ s hmem
        · rw [if_neg hlen] at hmem
          simp at hmem

lemma cmdDel_no_logged (o : Oracle) (contID netns netConf ifName args s : String) :
    Event.logged s ∉ (cmdDel o contID netns netConf ifName args).2 := by
  intro hmem
  cases hns : o.nsOpen netns with
  | error e => simp [cmdDel, withNetNSPath, hns] at hmem
  | ok u =>
    cases hdl : o.delLinkByName ifName with
    | error e => simp [cmdDel, withNetNSPath, hns, hdl] at hmem
    | ok u2 => simp [cmdDel, withNetNSPath, hns, hdl] at hmem

lemma colon_ne_required (pre m : String) (hp : (':' : Char) ∈ pre.data) :
    pre ++ m ≠ "Required env variable missing" := by
  intro hx
  have hd : pre.data ++ m.data = ("Required env variable missing").data := by
    rw [← String.data_append]
    exact congrArg String.data hx
  have hcol : (':' : Char) ∈ pre.data ++ m.data := List.mem_append.mpr (Or.inl hp)
  rw [hd] at hcol
  exact absurd hcol (by decide)

lemma colon_mem_mid (a : String) : (':' : Char) ∈ (a ++ ": ").data := by
  rw [String.data_append]
  exact List.mem_append.mpr (Or.inr (by decide))

/-- Claim C5: if any of command, container ID, namespace path, interface
name, or configuration reference is empty, the process logs the diagnostic
and the full environment, exits with status 1, and performs nothing else —
in particular no namespace entry and no allocation appear in the trace,
which consists of the two log lines only; while with those five set, the
missing-variable failure does not occur no matter the (possibly empty)
`args` value. -/
theorem c5_missing_env (o : Oracle) (argv : List String) (env : Environ) :
    ((env.cmd = "" ∨ env.contID = "" ∨ env.netns = "" ∨ env.ifName = "" ∨ env.netConf = "") →
      mainRun o argv env =
        (ProcResult.exited 1,
         [Event.logged "Required env variable missing",
          Event.logged ("Env: " ++ environString env)])) ∧
    (env.cmd ≠ "" → env.contID ≠ "" → env.netns ≠ "" → env.ifName ≠ "" → env.netConf ≠ "" →
      Event.logged "Required env variable missing" ∉ (mainRun o argv env).2) := by
  constructor
  · intro h
    simp only [mainRun, if_pos h]
  · intro h1 h2 h3 h4 h5 hmem
    have hno : ¬(env.cmd = "" ∨ env.contID = "" ∨ env.netns = "" ∨ env.ifName = "" ∨
        env.netConf = "") := by
      push_neg
      exact ⟨h1, h2, h3, h4, h5⟩
    rw [mainRun, if_neg hno] at hmem
    by_cases hadd : env.cmd = "ADD"
    · rw [if_pos hadd] at hmem
      have hnl := cmdAdd_no_logged o env.contID env.netns env.netConf env.ifName env.args
        "Required env variable missing"
      rcases hc : cmdAdd o env.contID env.netns env.netConf env.ifName env.args with ⟨res, tr⟩
      rw [hc] at hmem
      rw [hc] at hnl
      simp only at hnl
      cases res with
      | ok => exact hnl (by simpa [finishDispatch] using hmem)
      | err e =>
        simp only [finishDispatch] at hmem
        by_cases hlen : 2 ≤ argv.length
        · rw [if_pos hlen] at hmem
          simp only [List.mem_append] at hmem
          rcases hmem with hmem | hmem
          · exact hnl hmem
          · simp only [List.mem_singleton, Event.logged.injEq] at hmem
            exact colon_ne_required (argv.getD 1 "" ++ ": ") e.msg
              (colon_mem_mid (argv.getD 1 "")) (by rw [← hmem])
        · rw [if_neg hlen] at hmem
          exact hnl hmem
      | panicked m => exact hnl (by simpa [finishDispatch] using hmem)
    · rw [if_neg hadd] at hmem
      by_cases hdel : env.cmd = "DEL"
      · rw [if_pos hdel] at hmem
        have hnl := cmdDel_no_logged o env.contID env.netns env.netConf env.ifName env.args
          "Required env variable missing"
        rcases hc : cmdDel o env.contID env.netns env.netConf env.ifName env.args with ⟨res, tr⟩
        rw [hc] at hmem
        rw [hc] at hnl
        simp only at hnl
        cases res with
        | ok => exact hnl (by simpa [finishDispatch] using hmem)
        | err e =>
          simp only [finishDispatch] at hmem
          by_cases hlen : 2 ≤ argv.length
          · rw [if_pos hlen] at hmem
            simp only [List.mem_append] at hmem
            rcases hmem with hmem | hmem
            · exact hnl hmem
            · simp only [List.mem_singleton, Event.logged.injEq] at hmem
              exact colon_ne_required (argv.getD 1 "" ++ ": ") e.msg
                (colon_mem_mid (argv.getD 1 "")) (by rw [← hmem])
          · rw [if_neg hlen] at hmem
            exact hnl hmem
        | panicked m => exact hnl (by simpa [finishDispatch] using hmem)
      · rw [if_neg hdel] at hmem
        simp only [List.mem_singleton, Event.logged.injEq] at hmem
        exact colon_ne_required "Unknown RKT_NETPLUGIN_COMMAND: " env.cmd
          (by decide) (by rw [← hmem])

/-- Claim C5 witness: omitting the configuration reference exits with
status 1 after the two diagnostic lines and nothing else, while the same
environment with only `args` empty never logs the missing-variable
diagnostic. -/
theorem c5_witness :
    mainRun okO ["net-plugin", "ADD"] envNoConf =
      (ProcResult.exited 1,
       [Event.logged "Required env variable missing",
        Event.logged ("Env: " ++ environString envNoConf)]) ∧
    Event.logged "Required env variable missing" ∉
      (mainRun okO ["net-plugin", "ADD"] envAdd).2 :=
  ⟨(c5_missing_env okO ["net-plugin", "ADD"] envNoConf).1
     (Or.inr (Or.inr (Or.inr (Or.inr rfl)))),
   (c5_missing_env okO ["net-plugin", "ADD"] envAdd).2
     (by decide) (by decide) (by decide) (by decide) (by decide)⟩

/-- Claim C6 counterexample: the dispatcher logs `os.Args[1]`, not the
command name.  Invoked with command `ADD` in the environment but `DEL` as
first command-line argument, the failing-ADD diagnostic is
`"DEL: error parsing ContainerID: bad"`, which nowhere contains the failing
command name `ADD` — the claim's diagnostic guarantee fails. -/
theorem c6_counterexample :
    envAdd.cmd = "ADD" ∧
    mainRun uuidErrO ["net-plugin", "DEL"] envAdd =
      (ProcResult.exited 1, [Event.logged "DEL: error parsing ContainerID: bad"]) ∧
    containsStr "DEL: error parsing ContainerID: bad" "ADD" = false := by
  refine ⟨rfl, by decide, by decide⟩

/-- Claim C6 (amended): when the orchestrator's ADD or DEL returns an error
and at least two command-line arguments exist, the dispatcher appends a
diagnostic consisting of the first command-line argument (`os.Args[1]` —
the command name only under the invoker's calling convention) and the
error, and exits with status 1. -/
theorem c6_dispatch_error_exit (o : Oracle) (argv : List String) (env : Environ)
    (e : GoError) (tr : List Event)
    (h1 : env.cmd ≠ "") (h2 : env.contID ≠ "") (h3 : env.netns ≠ "") (h4 : env.ifName ≠ "")
    (h5 : env.netConf ≠ "") (hlen : 2 ≤ argv.length) :
    (env.cmd = "ADD" →
      cmdAdd o env.contID env.netns env.netConf env.ifName env.args = (Outcome.err e, tr) →
      mainRun o argv env =
        (ProcResult.exited 1, tr ++ [Event.logged (argv.getD 1 "" ++ ": " ++ e.msg)])) ∧
    (env.cmd = "DEL" →
      cmdDel o env.contID env.netns env.netConf env.ifName env.args = (Outcome.err e, tr) →
      mainRun o argv env =
        (ProcResult.exited 1, tr ++ [Event.logged (argv.getD 1 "" ++ ": " ++ e.msg)])) := by
  have hno : ¬(env.cmd = "" ∨ env.contID = "" ∨ env.netns = "" ∨ env.ifName = "" ∨
      env.netConf = "") := by
    push_neg
    exact ⟨h1, h2, h3, h4, h5⟩
  constructor
  · intro hadd hc
    rw [mainRun, if_neg hno, if_pos hadd, hc]
    simp [finishDispatch, if_pos hlen]
  · intro hdel hc
    rw [mainRun, if_neg hno, if_neg (by rw [hdel]; decide), if_pos hdel, hc]
    simp [finishDispatch, if_pos hlen]

/-- Claim C6 witness: a failing address assignment under `ADD` and a failing
deletion under `DEL` each exit with status 1 after logging `os.Args[1]` and
the error. -/
theorem c6_witness :
    mainRun addrErrO ["net-plugin", "ADD"] envAdd =
      (ProcResult.exited 1,
       [Event.allocCall, Event.nsEnter "/var/ns/7",
        Event.vethCreated "abc123eth0" "eth0" ⟨0x0A000001, 31⟩,
        Event.routeAdded ⟨0x0A010000, 24⟩ 0x0A000000 ⟨"eth0", 2⟩, Event.nsRestore,
        Event.linkLookup "veth1a2b"] ++
         [Event.logged ("ADD" ++ ": " ++ "failed to add IP addr to veth: boom")]) ∧
    mainRun delErrO ["net-plugin", "DEL"] envDel =
      (ProcResult.exited 1,
       [Event.nsEnter "/var/ns/7", Event.nsRestore] ++
         [Event.logged ("DEL" ++ ": " ++ "operation not permitted")]) :=
  ⟨(c6_dispatch_error_exit addrErrO ["net-plugin", "ADD"] envAdd
      ⟨"failed to add IP addr to veth: boom", false⟩
      [Event.allocCall, Event.nsEnter "/var/ns/7",
       Event.vethCreated "abc123eth0" "eth0" ⟨0x0A000001, 31⟩,
       Event.routeAdded ⟨0x0A010000, 24⟩ 0x0A000000 ⟨"eth0", 2⟩, Event.nsRestore,
       Event.linkLookup "veth1a2b"]
      (by decide) (by decide) (by decide) (by decide) (by decide) (by decide)).1 rfl (by decide),
   (c6_dispatch_error_exit delErrO ["net-plugin", "DEL"] envDel
      ⟨"operation not permitted", false⟩ [Event.nsEnter "/var/ns/7", Event.nsRestore]
      (by decide) (by decide) (by decide) (by decide) (by decide) (by decide)).2 rfl (by decide)⟩

/-- Claim C7 counterexample: the address-assignment failure is wrapped with
the operation text only — `"failed to add IP addr to veth: boom"` contains
neither the host veth's name, nor the /31 CIDR being assigned, nor the
namespace path, so this step's error is not wrapped with any salient
identifier as the claim asserts. -/
theorem c7_counterexample :
    (cmdAdd addrErrO "abc123" "/var/ns/7" "net.conf" "eth0" "").1 =
      Outcome.err ⟨"failed to add IP addr to veth: boom", false⟩ ∧
    containsStr "failed to add IP addr to veth: boom" "veth1a2b" = false ∧
    containsStr "failed to add IP addr to veth: boom" "10.0.0.0/31" = false ∧
    containsStr "failed to add IP addr to veth: boom" "/var/ns/7" = false := by
  refine ⟨by decide, by decide, by decide, by decide⟩

/-- Claim C7 (amended): allocator errors are returned by `cmdAdd` unchanged
(identical error value, nothing further done); every other listed failing
step wraps its error with a fixed operation description, and the salient
identifier is included for config load (the path), route parse (the CIDR
text), route install (the parsed network's text) and link lookup (the veth
name) — but identity parse, address assignment, and the host route wrap
with the operation text only, naming no identifier. -/
theorem c7_error_propagation (o : Oracle) (contID netns netConf ifName args : String) :
    (∀ (cid : UUID) (conf : Net) (e : GoError),
      o.newUUID contID = Except.ok cid → o.loadNet netConf = Except.ok conf →
      o.allocPtP cid netConf ifName args = Except.error e →
      cmdAdd o contID netns netConf ifName args = (Outcome.err e, [Event.allocCall])) ∧
    (∀ e : GoError, o.newUUID contID = Except.error e →
      (cmdAdd o contID netns netConf ifName args).1 =
        Outcome.err ⟨"error parsing ContainerID: " ++ e.msg, false⟩) ∧
    (∀ (cid : UUID) (e : GoError),
      o.newUUID contID = Except.ok cid → o.loadNet netConf = Except.error e →
      (cmdAdd o contID netns netConf ifName args).1 =
        Outcome.err ⟨"failed to load " ++ goQuote netConf ++ ": " ++ e.msg, false⟩) ∧
    (∀ (r : String) (rest : List String) (gw : IP) (dev : Link) (e : GoError),
      o.parseCIDR r = Except.error e →
      (installRoutes o (r :: rest) gw dev).1 =
        Except.error ⟨"failed to parse route " ++ goQuote r ++ ": " ++ e.msg, false⟩) ∧
    (∀ (r : String) (rest : List String) (gw : IP) (dev : Link) (dst : IPNet) (e : GoError),
      o.parseCIDR r = Except.ok dst → o.addRoute dst gw dev = Except.error e →
      (installRoutes o (r :: rest) gw dev).1 =
        Except.error ⟨"failed to add route " ++ goQuote dst.string ++ ": " ++ e.msg, false⟩) ∧
    (∀ (cid : UUID) (conf : Net) (hip cip : IP) (hv0 cv : Link) (revs : List Event)
        (e : GoError),
      o.newUUID contID = Except.ok cid → o.loadNet netConf = Except.ok conf →
      o.allocPtP cid netConf ifName args = Except.ok [hip, cip] →
      o.nsOpen netns = Except.ok () →
      o.setupVeth (contID ++ ifName) ifName ⟨cip, 31⟩ = Except.ok (hv0, cv) →
      installRoutes o conf.routes hip cv = (Except.ok (), revs) →
      o.linkByName hv0.name = Except.error e →
      (cmdAdd o contID netns netConf ifName args).1 =
        Outcome.err ⟨"failed to lookup " ++ goQuote hv0.name ++ ": " ++ e.msg, false⟩) ∧
    (∀ (cid : UUID) (conf : Net) (hip cip : IP) (hv0 cv hv : Link) (revs : List Event)
        (e : GoError),
      o.newUUID contID = Except.ok cid → o.loadNet netConf = Except.ok conf →
      o.allocPtP cid netConf ifName args = Except.ok [hip, cip] →
      o.nsOpen netns = Except.ok () →
      o.setupVeth (contID ++ ifName) ifName ⟨cip, 31⟩ = Except.ok (hv0, cv) →
      installRoutes o conf.routes hip cv = (Except.ok (), revs) →
      o.linkByName hv0.name = Except.ok hv →
      o.addrAdd hv ⟨hip, 31⟩ = Except.error e →
      (cmdAdd o contID netns netConf ifName args).1 =
        Outcome.err ⟨"failed to add IP addr to veth: " ++ e.msg, false⟩) ∧
    (∀ (cid : UUID) (conf : Net) (hip cip : IP) (hv0 cv hv : Link) (revs : List Event)
        (e : GoError),
      o.newUUID contID = Except.ok cid → o.loadNet netConf = Except.ok conf →
      o.allocPtP cid netConf ifName args = Except.ok [hip, cip] →
      o.nsOpen netns = Except.ok () →
      o.setupVeth (contID ++ ifName) ifName ⟨cip, 31⟩ = Except.ok (hv0, cv) →
      installRoutes o conf.routes hip cv = (Except.ok (), revs) →
      o.linkByName hv0.name = Except.ok hv →
      o.addrAdd hv ⟨hip, 31⟩ = Except.ok () →
      o.addHostRoute ⟨hip, 31⟩ hv = Except.error e → e.isExist = false →
      (cmdAdd o contID netns netConf ifName args).1 =
        Outcome.err ⟨"failed to add route on host: " ++ e.msg, false⟩) := by
  refine ⟨?_, ?_, ?_, ?_, ?_, ?_, ?_, ?_⟩
  · intro cid conf e hU hL hA
    simp [cmdAdd, hU, hL, hA]
  · intro e hU
    simp [cmdAdd, hU]
  · intro cid e hU hL
    simp [cmdAdd, hU, hL]
  · intro r rest gw dev e hp
    simp [installRoutes, hp]
  · intro r rest gw dev dst e hp ha
    simp [installRoutes, hp, ha]
  · intro cid conf hip cip hv0 cv revs e hU hL hA hns hs hI hLk
    simp [cmdAdd, hU, hL, hA, withNetNSPath, hns, addCallback, hs, hI, hLk]
  · intro cid conf hip cip hv0 cv hv revs e hU hL hA hns hs hI hLk hAd
    simp [cmdAdd, hU, hL, hA, withNetNSPath, hns, addCallback, hs, hI, hLk, hAd]
  · intro cid conf hip cip hv0 cv hv revs e hU hL hA hns hs hI hLk hAd hHr hex
    simp [cmdAdd, hU, hL, hA, withNetNSPath, hns, addCallback, hs, hI, hLk, hAd, hHr, hex]

/-- Claim C7 witness: the allocator's error (even one carrying the
`os.IsExist` property) comes back untouched; the identity-parse, config-load
and address-assignment failures come back with their fixed operation
wrappers; a malformed first route entry comes back wrapped with the quoted
CIDR text. -/
theorem c7_witness :
    cmdAdd allocErrO "abc123" "/var/ns/7" "net.conf" "eth0" "" =
      (Outcome.err ⟨"no more addresses", true⟩, [Event.allocCall]) ∧
    (cmdAdd uuidErrO "abc123" "/var/ns/7" "net.conf" "eth0" "").1 =
      Outcome.err ⟨"error parsing ContainerID: bad", false⟩ ∧
    (cmdAdd loadErrO "abc123" "/var/ns/7" "net.conf" "eth0" "").1 =
      Outcome.err ⟨"failed to load \"net.conf\": no such file", false⟩ ∧
    (installRoutes okO ["not-a-cidr"] 0x0A000000 ⟨"eth0", 2⟩).1 =
      Except.error
        ⟨"failed to parse route \"not-a-cidr\": invalid CIDR address: not-a-cidr", false⟩ ∧
    (installRoutes routeAddErrO ["10.1.0.0/24"] 0x0A000000 ⟨"eth0", 2⟩).1 =
      Except.error ⟨"failed to add route \"10.1.0.0/24\": invalid gateway", false⟩ ∧
    (cmdAdd lookupErrO "abc123" "/var/ns/7" "net.conf" "eth0" "").1 =
      Outcome.err ⟨"failed to lookup \"veth1a2b\": Link not found", false⟩ ∧
    (cmdAdd addrErrO "abc123" "/var/ns/7" "net.conf" "eth0" "").1 =
      Outcome.err ⟨"failed to add IP addr to veth: boom", false⟩ ∧
    (cmdAdd hostErrO "abc123" "/var/ns/7" "net.conf" "eth0" "").1 =
      Outcome.err ⟨"failed to add route on host: network is down", false⟩ :=
  ⟨(c7_error_propagation allocErrO "abc123" "/var/ns/7" "net.conf" "eth0" "").1
     ⟨"abc123"⟩ ⟨["10.1.0.0/24"]⟩ ⟨"no more addresses", true⟩ rfl rfl rfl,
   (c7_error_propagation uuidErrO "abc123" "/var/ns/7" "net.conf" "eth0" "").2.1
     ⟨"bad", false⟩ rfl,
   (c7_error_propagation loadErrO "abc123" "/var/ns/7" "net.conf" "eth0" "").2.2.1
     ⟨"abc123"⟩ ⟨"no such file", false⟩ rfl rfl,
   (c7_error_propagation okO "abc123" "/var/ns/7" "net.conf" "eth0" "").2.2.2.1
     "not-a-cidr" [] 0x0A000000 ⟨"eth0", 2⟩ ⟨"invalid CIDR address: not-a-cidr", false⟩ rfl,
   (c7_error_propagation routeAddErrO "abc123" "/var/ns/7" "net.conf" "eth0" "").2.2.2.2.1
     "10.1.0.0/24" [] 0x0A000000 ⟨"eth0", 2⟩ ⟨0x0A010000, 24⟩ ⟨"invalid gateway", false⟩
     rfl rfl,
   (c7_error_propagation lookupErrO "abc123" "/var/ns/7" "net.conf" "eth0" "").2.2.2.2.2.1
     ⟨"abc123"⟩ ⟨["10.1.0.0/24"]⟩ 0x0A000000 0x0A000001 ⟨"veth1a2b", 7⟩ ⟨"eth0", 2⟩
     [Event.routeAdded ⟨0x0A010000, 24⟩ 0x0A000000 ⟨"eth0", 2⟩]
     ⟨"Link not found", false⟩ rfl rfl rfl rfl rfl rfl rfl,
   (c7_error_propagation addrErrO "abc123" "/var/ns/7" "net.conf" "eth0" "").2.2.2.2.2.2.1
     ⟨"abc123"⟩ ⟨["10.1.0.0/24"]⟩ 0x0A000000 0x0A000001 ⟨"veth1a2b", 7⟩ ⟨"eth0", 2⟩
     ⟨"veth1a2b", 9⟩ [Event.routeAdded ⟨0x0A010000, 24⟩ 0x0A000000 ⟨"eth0", 2⟩]
     ⟨"boom", false⟩ rfl rfl rfl rfl rfl rfl rfl rfl,
   (c7_error_propagation hostErrO "abc123" "/var/ns/7" "net.conf" "eth0" "").2.2.2.2.2.2.2
     ⟨"abc123"⟩ ⟨["10.1.0.0/24"]⟩ 0x0A000000 0x0A000001 ⟨"veth1a2b", 7⟩ ⟨"eth0", 2⟩
     ⟨"veth1a2b", 9⟩ [Event.routeAdded ⟨0x0A010000, 24⟩ 0x0A000000 ⟨"eth0", 2⟩]
     ⟨"network is down", false⟩ rfl rfl rfl rfl rfl rfl rfl rfl rfl rfl⟩
